import Mathlib

/-!
# Verification of the mpris event diff engine (`src/event.rs`)

Shallow embedding of `PlayerEvents` from `src/event.rs` of `waylyrics/mpris-rs`.

The external collaborators (`Player::is_running`,
`Player::process_events_blocking_until_dirty`, `Progress::from_player`,
`Metadata`) live outside `src/`; they are modelled from the spec as an
explicit oracle: each potential diff step is given the answers the player
would return.  Rust `f64` fields (volume, playback rate) are modelled as
rationals; the code compares them only with `!=`, which on non-NaN values
is decidable inequality.

Every interaction with the player is also recorded in an explicit call
trace (`ExtCall`), so that statements such as "no snapshot fetch is
attempted" or "no intervening blocking wait" are directly expressible.
-/

namespace Mpris

/-- `PlaybackStatus` enum (playing / paused / stopped). -/
inductive PlaybackStatus where
  | Playing
  | Paused
  | Stopped
deriving DecidableEq, Repr

/-- `LoopStatus` enum (no looping / loop one track / loop playlist). -/
inductive LoopStatus where
  | None
  | Track
  | Playlist
deriving DecidableEq, Repr

/-- Modelled from the spec: `Metadata` is a structured record including a
track identity field and auxiliary fields irrelevant to diffing ("rest").
The concrete field set of `metadata.rs` is outside `src/`; only the track
identity field and the auxiliary "rest" map matter to the diff engine. -/
structure Metadata where
  track_id : String
  rest : List (String × String)
deriving DecidableEq, Repr

/-- Modelled from the spec: `Metadata::clone_without_rest` clears the
auxiliary "rest" fields, keeping everything else. -/
def Metadata.clone_without_rest (m : Metadata) : Metadata :=
  { m with rest := [] }

/-- `DBusError` (the spec's `ConnectionError`): raised only when snapshot
acquisition fails.  Its internal structure is irrelevant to the diff
engine; a message string stands in for it. -/
structure DBusError where
  message : String
deriving DecidableEq, Repr

/-- Modelled from the spec: a `Progress` value (the spec's Snapshot) is an
immutable point-in-time record of the player attributes tracked for
diffing.  Field names follow the accessors used by `event.rs`
(`playback_status()`, `loop_status()`, `shuffle()`, `current_volume()`,
`playback_rate()`, `metadata()`). -/
structure Progress where
  playback_status : PlaybackStatus
  loop_status : LoopStatus
  shuffle : Bool
  current_volume : ℚ
  playback_rate : ℚ
  metadata : Metadata
deriving DecidableEq, Repr

/-- The `Event` enum of `event.rs`: a closed tagged union of player state
changes. -/
inductive Event where
  | PlayerShutDown
  | Paused
  | Playing
  | Stopped
  | LoopingChanged (status : LoopStatus)
  | ShuffleToggled (status : Bool)
  | VolumeChanged (volume : ℚ)
  | PlaybackRateChanged (rate : ℚ)
  | TrackChanged (metadata : Metadata)
deriving DecidableEq, Repr

/-- The mutable state of `PlayerEvents`: the queued-up events (`buffer`,
a FIFO: `Vec::push` appends at the back, `remove(0)` pops the front) and
the last snapshot used for diffing (`last_progress`).  The `player`
reference is represented by the oracle passed to `next`. -/
structure PlayerEvents where
  buffer : List Event
  last_progress : Progress
deriving DecidableEq, Repr

instance {ε α : Type} [DecidableEq ε] [DecidableEq α] : DecidableEq (Except ε α) :=
  fun x y =>
    match x, y with
    | Except.error a, Except.error b =>
        if h : a = b then isTrue (by rw [h])
        else isFalse (by intro hc; injection hc; exact h ‹_›)
    | Except.ok a, Except.ok b =>
        if h : a = b then isTrue (by rw [h])
        else isFalse (by intro hc; injection hc; exact h ‹_›)
    | Except.error _, Except.ok _ => isFalse (by intro hc; exact Except.noConfusion hc)
    | Except.ok _, Except.error _ => isFalse (by intro hc; exact Except.noConfusion hc)

/-- One observable call to the external player interface, together with
the answer the player gave. -/
inductive ExtCall where
  | isRunning (answer : Bool)
  | waitUntilDirty
  | fetchSnapshot (result : Except DBusError Progress)
deriving DecidableEq, Repr

/-- The answers the external player gives during one loop iteration of
`next`: `is_running` at the top of the loop, `is_running` again after
`process_events_blocking_until_dirty` returns, and the outcome of
`Progress::from_player`.  Unused answers are simply not consumed. -/
structure StepOracle where
  running_before : Bool
  running_after : Bool
  fetch : Except DBusError Progress
deriving DecidableEq, Repr

/-- Outcome of one `next()` call.  `item r` is Rust's `Some(r)`, `ended`
is Rust's `None` (end of iteration); `blocked` is a model artifact: the
oracle list ran out while the real code would still be blocking on the
player. -/
inductive NextResult where
  | item (r : Except DBusError Event)
  | ended
  | blocked
deriving DecidableEq, Repr

/-- `detect_playback_status_events`: mirror of the Rust `match` — the
guard arm drops the equal case, the remaining arms map the new status to
its event. -/
def detect_playback_status_events (s : PlayerEvents) (new_progress : Progress) :
    PlayerEvents :=
  if s.last_progress.playback_status = new_progress.playback_status then s
  else
    match new_progress.playback_status with
    | PlaybackStatus.Playing => { s with buffer := s.buffer ++ [Event.Playing] }
    | PlaybackStatus.Paused => { s with buffer := s.buffer ++ [Event.Paused] }
    | PlaybackStatus.Stopped => { s with buffer := s.buffer ++ [Event.Stopped] }

/-- `detect_loop_status_events` from `event.rs`. -/
def detect_loop_status_events (s : PlayerEvents) (new_progress : Progress) :
    PlayerEvents :=
  if s.last_progress.loop_status ≠ new_progress.loop_status then
    { s with buffer := s.buffer ++ [Event.LoopingChanged new_progress.loop_status] }
  else s

/-- `detect_shuffle_events` from `event.rs`. -/
def detect_shuffle_events (s : PlayerEvents) (new_progress : Progress) :
    PlayerEvents :=
  if s.last_progress.shuffle ≠ new_progress.shuffle then
    { s with buffer := s.buffer ++ [Event.ShuffleToggled new_progress.shuffle] }
  else s

/-- `detect_volume_events` from `event.rs` (strict inequality, no epsilon). -/
def detect_volume_events (s : PlayerEvents) (new_progress : Progress) :
    PlayerEvents :=
  if s.last_progress.current_volume ≠ new_progress.current_volume then
    { s with buffer := s.buffer ++ [Event.VolumeChanged new_progress.current_volume] }
  else s

/-- `detect_playback_rate_events` from `event.rs`. -/
def detect_playback_rate_events (s : PlayerEvents) (new_progress : Progress) :
    PlayerEvents :=
  if s.last_progress.playback_rate ≠ new_progress.playback_rate then
    { s with buffer := s.buffer ++ [Event.PlaybackRateChanged new_progress.playback_rate] }
  else s

/-- `detect_metadata_events` from `event.rs`: only the track identity
field is compared; the payload is the new metadata without rest. -/
def detect_metadata_events (s : PlayerEvents) (new_progress : Progress) :
    PlayerEvents :=
  if s.last_progress.metadata.track_id ≠ new_progress.metadata.track_id then
    { s with buffer :=
        s.buffer ++ [Event.TrackChanged new_progress.metadata.clone_without_rest] }
  else s

/-- `PlayerEvents::read_events`: block until dirty, re-check liveness
(shutdown event if the player died during the wait), otherwise fetch a
new snapshot, run the six detection passes in order and store the new
snapshot.  Returns the updated state (or the fetch error) together with
the trace of external calls performed. -/
def read_events (s : PlayerEvents) (o : StepOracle) :
    Except DBusError PlayerEvents × List ExtCall :=
  if o.running_after = false then
    (Except.ok { s with buffer := s.buffer ++ [Event.PlayerShutDown] },
      [ExtCall.waitUntilDirty, ExtCall.isRunning false])
  else
    match o.fetch with
    | Except.error err =>
        (Except.error err,
          [ExtCall.waitUntilDirty, ExtCall.isRunning true,
            ExtCall.fetchSnapshot (Except.error err)])
    | Except.ok new_progress =>
        let s1 := detect_playback_status_events s new_progress
        let s2 := detect_loop_status_events s1 new_progress
        let s3 := detect_shuffle_events s2 new_progress
        let s4 := detect_volume_events s3 new_progress
        let s5 := detect_playback_rate_events s4 new_progress
        let s6 := detect_metadata_events s5 new_progress
        (Except.ok { s6 with last_progress := new_progress },
          [ExtCall.waitUntilDirty, ExtCall.isRunning true,
            ExtCall.fetchSnapshot (Except.ok new_progress)])

/-- `PlayerEvents::new`: fetch an initial snapshot; a fetch error is a
construction failure, success yields an empty buffer with the snapshot as
baseline. -/
def PlayerEvents.new (fetch0 : Except DBusError Progress) :
    Except DBusError PlayerEvents :=
  match fetch0 with
  | Except.error err => Except.error err
  | Except.ok progress => Except.ok { buffer := [], last_progress := progress }

/-- `Iterator::next` for `PlayerEvents`: the `while self.buffer.is_empty()`
loop.  Each loop iteration consumes one oracle entry; the loop ends when
the buffer is non-empty (pop front), the player is found not running at
the top of the loop (`ended`), `read_events` returns an error, or the
oracle list runs dry (`blocked`).  Also returns the remaining oracle and
the external calls made during this call. -/
def next (s : PlayerEvents) (env : List StepOracle) :
    NextResult × PlayerEvents × List StepOracle × List ExtCall :=
  match s.buffer with
  | e :: restBuffer =>
      (NextResult.item (Except.ok e), { s with buffer := restBuffer }, env, [])
  | [] =>
      match env with
      | [] => (NextResult.blocked, s, [], [])
      | o :: env' =>
          if o.running_before = false then
            (NextResult.ended, s, env', [ExtCall.isRunning false])
          else
            match read_events s o with
            | (Except.error err, calls) =>
                (NextResult.item (Except.error err), s, env',
                  ExtCall.isRunning true :: calls)
            | (Except.ok s', calls) =>
                let rec2 := next s' env'
                (rec2.1, rec2.2.1, rec2.2.2.1,
                  (ExtCall.isRunning true :: calls) ++ rec2.2.2.2)
termination_by structural env

/-- Run `next` a given number of times, collecting each call's result and
call trace. -/
def runNexts (s : PlayerEvents) (env : List StepOracle) :
    Nat → List (NextResult × List ExtCall)
  | 0 => []
  | k + 1 =>
      let step := next s env
      (step.1, step.2.2.2) :: runNexts step.2.1 step.2.2.1 k

/-- The status-to-event mapping of the non-guard arms in
`detect_playback_status_events` (`Playing ↦ Event::Playing`, etc.). -/
def playback_status_event : PlaybackStatus → Event
  | PlaybackStatus.Playing => Event.Playing
  | PlaybackStatus.Paused => Event.Paused
  | PlaybackStatus.Stopped => Event.Stopped

/-- Concrete metadata value used by witnesses. -/
def sampleMetadata : Metadata :=
  { track_id := "/org/mpris/t1", rest := [("art-url", "file:cover1.png")] }

/-- Concrete metadata value with a different track identity. -/
def sampleMetadata2 : Metadata :=
  { track_id := "/org/mpris/t2", rest := [("art-url", "file:cover2.png")] }

/-- Concrete snapshot used by witnesses. -/
def sampleProgress : Progress :=
  { playback_status := PlaybackStatus.Paused, loop_status := LoopStatus.None,
    shuffle := false, current_volume := 1, playback_rate := 1,
    metadata := sampleMetadata }

/-- Concrete snapshot differing from `sampleProgress` in playback status,
volume and track identity, equal elsewhere. -/
def sampleProgress2 : Progress :=
  { playback_status := PlaybackStatus.Playing, loop_status := LoopStatus.None,
    shuffle := false, current_volume := 1 / 2, playback_rate := 1,
    metadata := sampleMetadata2 }

/-- Concrete stream state with an empty queue. -/
def sampleState : PlayerEvents :=
  { buffer := [], last_progress := sampleProgress }

/-! ## Helper lemmas: characterizations of the detection passes -/

/-- `detect_playback_status_events` appends exactly the mapped status event
when the status changed, and nothing otherwise. -/
theorem detect_playback_status_events_eq (s : PlayerEvents) (np : Progress) :
    detect_playback_status_events s np =
      { s with buffer := s.buffer ++
          (if s.last_progress.playback_status = np.playback_status then []
           else [playback_status_event np.playback_status]) } := by
  by_cases h : s.last_progress.playback_status = np.playback_status
  · simp [detect_playback_status_events, h]
  · cases hs : np.playback_status <;>
      rw [hs] at h <;>
      simp [detect_playback_status_events, playback_status_event, h, hs]

/-- `detect_loop_status_events` appends exactly one `LoopingChanged` when the
loop status changed, and nothing otherwise. -/
theorem detect_loop_status_events_eq (s : PlayerEvents) (np : Progress) :
    detect_loop_status_events s np =
      { s with buffer := s.buffer ++
          (if s.last_progress.loop_status = np.loop_status then []
           else [Event.LoopingChanged np.loop_status]) } := by
  by_cases h : s.last_progress.loop_status = np.loop_status <;>
    simp [detect_loop_status_events, h]

/-- `detect_shuffle_events` appends exactly one `ShuffleToggled` when the
shuffle flag changed, and nothing otherwise. -/
theorem detect_shuffle_events_eq (s : PlayerEvents) (np : Progress) :
    detect_shuffle_events s np =
      { s with buffer := s.buffer ++
          (if s.last_progress.shuffle = np.shuffle then []
           else [Event.ShuffleToggled np.shuffle]) } := by
  by_cases h : s.last_progress.shuffle = np.shuffle <;>
    simp [detect_shuffle_events, h]

/-- `detect_volume_events` appends exactly one `VolumeChanged` when the
volume changed, and nothing otherwise. -/
theorem detect_volume_events_eq (s : PlayerEvents) (np : Progress) :
    detect_volume_events s np =
      { s with buffer := s.buffer ++
          (if s.last_progress.current_volume = np.current_volume then []
           else [Event.VolumeChanged np.current_volume]) } := by
  by_cases h : s.last_progress.current_volume = np.current_volume <;>
    simp [detect_volume_events, h]

/-- `detect_playback_rate_events` appends exactly one `PlaybackRateChanged`
when the rate changed, and nothing otherwise. -/
theorem detect_playback_rate_events_eq (s : PlayerEvents) (np : Progress) :
    detect_playback_rate_events s np =
      { s with buffer := s.buffer ++
          (if s.last_progress.playback_rate = np.playback_rate then []
           else [Event.PlaybackRateChanged np.playback_rate]) } := by
  by_cases h : s.last_progress.playback_rate = np.playback_rate <;>
    simp [detect_playback_rate_events, h]

/-- `detect_metadata_events` appends exactly one `TrackChanged` when the
track identity changed, and nothing otherwise. -/
theorem detect_metadata_events_eq (s : PlayerEvents) (np : Progress) :
    detect_metadata_events s np =
      { s with buffer := s.buffer ++
          (if s.last_progress.metadata.track_id = np.metadata.track_id then []
           else [Event.TrackChanged np.metadata.clone_without_rest]) } := by
  by_cases h : s.last_progress.metadata.track_id = np.metadata.track_id <;>
    simp [detect_metadata_events, h]

/-- Successful diff step: `read_events` with a live player and a successful
fetch appends the six comparison passes' events in their fixed order and
stores the new snapshot; the call trace is wait, liveness check, fetch. -/
theorem read_events_ok (s : PlayerEvents) (o : StepOracle) (np : Progress)
    (ha : o.running_after = true) (hf : o.fetch = Except.ok np) :
    read_events s o =
      (Except.ok
        { buffer := s.buffer ++
            ((if s.last_progress.playback_status = np.playback_status then []
              else [playback_status_event np.playback_status]) ++
             (if s.last_progress.loop_status = np.loop_status then []
              else [Event.LoopingChanged np.loop_status]) ++
             (if s.last_progress.shuffle = np.shuffle then []
              else [Event.ShuffleToggled np.shuffle]) ++
             (if s.last_progress.current_volume = np.current_volume then []
              else [Event.VolumeChanged np.current_volume]) ++
             (if s.last_progress.playback_rate = np.playback_rate then []
              else [Event.PlaybackRateChanged np.playback_rate]) ++
             (if s.last_progress.metadata.track_id = np.metadata.track_id then []
              else [Event.TrackChanged np.metadata.clone_without_rest])),
          last_progress := np },
        [ExtCall.waitUntilDirty, ExtCall.isRunning true,
          ExtCall.fetchSnapshot (Except.ok np)]) := by
  simp [read_events, ha, hf, detect_playback_status_events_eq,
    detect_loop_status_events_eq, detect_shuffle_events_eq,
    detect_volume_events_eq, detect_playback_rate_events_eq,
    detect_metadata_events_eq, List.append_assoc]

/-- With a non-empty buffer, `next` pops the front element and performs no
external call at all. -/
theorem next_pops_front_of_cons_buffer (e : Event) (rest : List Event)
    (lp : Progress) (env : List StepOracle) :
    next { buffer := e :: rest, last_progress := lp } env =
      (NextResult.item (Except.ok e),
        { buffer := rest, last_progress := lp }, env, []) := by
  cases env <;> rfl

/-! ## Claim theorems -/

/-- Claim C1, amended (the claim as frozen is refuted by
`next_unreachable_empty_queue_no_shutdown_item`): for every event stream
whose pending queue is empty, if the player is unreachable at the moment
`next()` is called, `next()` immediately reports end-of-sequence without
yielding any item — in particular no `PlayerShutDown` event — and no
snapshot fetch (and no blocking wait) is attempted; the stream state is
unchanged. -/
theorem next_unreachable_empty_queue_ends_immediately
    (s : PlayerEvents) (o : StepOracle) (env : List StepOracle)
    (hbuf : s.buffer = []) (hrun : o.running_before = false) :
    next s (o :: env) = (NextResult.ended, s, env, [ExtCall.isRunning false]) := by
  obtain ⟨buf, lp⟩ := s
  dsimp only at hbuf
  subst hbuf
  simp [next, hrun]

/-- Claim C1, counterexample to the claim as frozen: at a concrete stream
state with an empty queue and a player that is unreachable when `next()`
is called, the call reports end-of-sequence, which is not a yielded
`PlayerShutDown` item. -/
theorem next_unreachable_empty_queue_no_shutdown_item :
    next sampleState [⟨false, false, Except.error ⟨"lost"⟩⟩] =
      (NextResult.ended, sampleState, [], [ExtCall.isRunning false]) ∧
    NextResult.ended ≠ NextResult.item (Except.ok Event.PlayerShutDown) :=
  ⟨rfl, by decide⟩

/-- Claim C1, witness for the amended theorem at a concrete input. -/
theorem next_unreachable_empty_queue_ends_immediately_witness :
    next sampleState [⟨false, true, Except.ok sampleProgress2⟩] =
      (NextResult.ended, sampleState, [], [ExtCall.isRunning false]) :=
  next_unreachable_empty_queue_ends_immediately sampleState
    ⟨false, true, Except.ok sampleProgress2⟩ [] rfl rfl

/-- Claim C2: the diff step runs its comparison passes in the fixed order
playback status, loop status, shuffle, volume, playback rate, metadata
identity, each pass appending at most one event (first conjunct); hence
for a snapshot pair differing simultaneously in playback status, volume
and metadata identity (and equal elsewhere), the three yielded items come
in exactly the order playback-status event, `VolumeChanged`,
`TrackChanged` (second conjunct). -/
theorem read_events_fixed_pass_order :
    (∀ (s : PlayerEvents) (o : StepOracle) (np : Progress),
      o.running_after = true → o.fetch = Except.ok np →
      read_events s o =
        (Except.ok
          { buffer := s.buffer ++
              ((if s.last_progress.playback_status = np.playback_status then []
                else [playback_status_event np.playback_status]) ++
               (if s.last_progress.loop_status = np.loop_status then []
                else [Event.LoopingChanged np.loop_status]) ++
               (if s.last_progress.shuffle = np.shuffle then []
                else [Event.ShuffleToggled np.shuffle]) ++
               (if s.last_progress.current_volume = np.current_volume then []
                else [Event.VolumeChanged np.current_volume]) ++
               (if s.last_progress.playback_rate = np.playback_rate then []
                else [Event.PlaybackRateChanged np.playback_rate]) ++
               (if s.last_progress.metadata.track_id = np.metadata.track_id then []
                else [Event.TrackChanged np.metadata.clone_without_rest])),
            last_progress := np },
          [ExtCall.waitUntilDirty, ExtCall.isRunning true,
            ExtCall.fetchSnapshot (Except.ok np)])) ∧
    (∀ (lp np : Progress) (o : StepOracle) (env : List StepOracle),
      o.running_before = true → o.running_after = true → o.fetch = Except.ok np →
      lp.playback_status ≠ np.playback_status →
      lp.loop_status = np.loop_status →
      lp.shuffle = np.shuffle →
      lp.current_volume ≠ np.current_volume →
      lp.playback_rate = np.playback_rate →
      lp.metadata.track_id ≠ np.metadata.track_id →
      (runNexts { buffer := [], last_progress := lp } (o :: env) 3).map Prod.fst =
        [NextResult.item (Except.ok (playback_status_event np.playback_status)),
         NextResult.item (Except.ok (Event.VolumeChanged np.current_volume)),
         NextResult.item (Except.ok
           (Event.TrackChanged np.metadata.clone_without_rest))]) := by
  constructor
  · intro s o np ha hf
    exact read_events_ok s o np ha hf
  · intro lp np o env hb ha hf h1 h2 h3 h4 h5 h6
    simp [runNexts, next, hb, read_events_ok _ _ _ ha hf, h1, h2, h3, h4, h5, h6,
      next_pops_front_of_cons_buffer]

/-- Claim C2, witness: a concrete snapshot pair differing in playback
status, volume and track identity yields exactly the three events in the
fixed order. -/
theorem read_events_fixed_pass_order_witness :
    (runNexts { buffer := [], last_progress := sampleProgress }
        [⟨true, true, Except.ok sampleProgress2⟩] 3).map Prod.fst =
      [NextResult.item (Except.ok (playback_status_event sampleProgress2.playback_status)),
       NextResult.item (Except.ok (Event.VolumeChanged sampleProgress2.current_volume)),
       NextResult.item (Except.ok
         (Event.TrackChanged sampleProgress2.metadata.clone_without_rest))] :=
  read_events_fixed_pass_order.2 sampleProgress sampleProgress2
    ⟨true, true, Except.ok sampleProgress2⟩ [] rfl rfl rfl
    (by decide) rfl rfl (by simp [sampleProgress, sampleProgress2]) rfl (by decide)

/-- Claim C3: when the player is found unreachable after the blocking wait
returns, the diff step enqueues exactly one `PlayerShutDown` event and
stops — the call trace contains no snapshot fetch and the stored last
snapshot is unchanged. -/
theorem read_events_unreachable_after_wait_shutdown (s : PlayerEvents) (o : StepOracle)
    (h : o.running_after = false) :
    read_events s o =
      (Except.ok { buffer := s.buffer ++ [Event.PlayerShutDown],
                   last_progress := s.last_progress },
        [ExtCall.waitUntilDirty, ExtCall.isRunning false]) := by
  simp [read_events, h]

/-- Claim C3, witness at a concrete input. -/
theorem read_events_unreachable_after_wait_shutdown_witness :
    read_events sampleState ⟨true, false, Except.ok sampleProgress2⟩ =
      (Except.ok { buffer := sampleState.buffer ++ [Event.PlayerShutDown],
                   last_progress := sampleState.last_progress },
        [ExtCall.waitUntilDirty, ExtCall.isRunning false]) :=
  read_events_unreachable_after_wait_shutdown sampleState
    ⟨true, false, Except.ok sampleProgress2⟩ rfl

/-- Claim C4: if the player is still reachable after the wait but the
snapshot fetch fails, `next()` yields that error as its item and the
state is unchanged — same stored snapshot, unmodified (empty) pending
queue. -/
theorem next_fetch_error_surfaced_state_unchanged
    (s : PlayerEvents) (o : StepOracle) (env : List StepOracle) (e : DBusError)
    (hbuf : s.buffer = []) (hb : o.running_before = true)
    (ha : o.running_after = true) (hf : o.fetch = Except.error e) :
    next s (o :: env) =
      (NextResult.item (Except.error e), s, env,
        [ExtCall.isRunning true, ExtCall.waitUntilDirty, ExtCall.isRunning true,
          ExtCall.fetchSnapshot (Except.error e)]) := by
  obtain ⟨buf, lp⟩ := s
  dsimp only at hbuf
  subst hbuf
  simp [next, read_events, hb, ha, hf]

/-- Claim C4, witness at a concrete input. -/
theorem next_fetch_error_surfaced_state_unchanged_witness :
    next sampleState [⟨true, true, Except.error ⟨"connection reset"⟩⟩] =
      (NextResult.item (Except.error ⟨"connection reset"⟩), sampleState, [],
        [ExtCall.isRunning true, ExtCall.waitUntilDirty, ExtCall.isRunning true,
          ExtCall.fetchSnapshot (Except.error ⟨"connection reset"⟩)]) :=
  next_fetch_error_surfaced_state_unchanged sampleState
    ⟨true, true, Except.error ⟨"connection reset"⟩⟩ [] ⟨"connection reset"⟩
    rfl rfl rfl rfl

/-- Claim C5: the metadata pass emits a `TrackChanged` event exactly when
the track identity field differs between the two snapshots — full
metadata equality is never consulted — and the payload is the new
metadata with its rest fields stripped. -/
theorem detect_metadata_events_track_id_iff (s : PlayerEvents) (np : Progress) :
    (detect_metadata_events s np).buffer =
      s.buffer ++
        (if s.last_progress.metadata.track_id = np.metadata.track_id then []
         else [Event.TrackChanged np.metadata.clone_without_rest]) ∧
    (detect_metadata_events s np).last_progress = s.last_progress ∧
    ((detect_metadata_events s np).buffer ≠ s.buffer ↔
      s.last_progress.metadata.track_id ≠ np.metadata.track_id) := by
  rw [detect_metadata_events_eq]
  refine ⟨rfl, rfl, ?_⟩
  by_cases h : s.last_progress.metadata.track_id = np.metadata.track_id
  · simp [h]
  · have hlen : s.buffer ++ [Event.TrackChanged np.metadata.clone_without_rest] ≠
        s.buffer := by
      intro hc
      simpa using congrArg List.length hc
    simp [h, hlen]

/-- Claim C6: when the two snapshots agree on all compared fields, the
diff step enqueues zero events and `next()` goes back to blocking on the
wait primitive (the call continues as a fresh `next` from an empty queue
with the new baseline), surfacing nothing from this step. -/
theorem noop_diff_enqueues_nothing_and_blocks_again
    (lp np : Progress) (o : StepOracle) (env : List StepOracle)
    (hb : o.running_before = true) (ha : o.running_after = true)
    (hf : o.fetch = Except.ok np)
    (h1 : lp.playback_status = np.playback_status)
    (h2 : lp.loop_status = np.loop_status)
    (h3 : lp.shuffle = np.shuffle)
    (h4 : lp.current_volume = np.current_volume)
    (h5 : lp.playback_rate = np.playback_rate)
    (h6 : lp.metadata.track_id = np.metadata.track_id) :
    next { buffer := [], last_progress := lp } (o :: env) =
      ((next { buffer := [], last_progress := np } env).1,
        (next { buffer := [], last_progress := np } env).2.1,
        (next { buffer := [], last_progress := np } env).2.2.1,
        [ExtCall.isRunning true, ExtCall.waitUntilDirty, ExtCall.isRunning true,
          ExtCall.fetchSnapshot (Except.ok np)] ++
          (next { buffer := [], last_progress := np } env).2.2.2) := by
  simp [next, hb, read_events_ok _ _ _ ha hf, h1, h2, h3, h4, h5, h6]

/-- Claim C6, witness at a concrete input (identical snapshots). -/
theorem noop_diff_enqueues_nothing_and_blocks_again_witness :
    next { buffer := [], last_progress := sampleProgress }
        [⟨true, true, Except.ok sampleProgress⟩] =
      ((next { buffer := [], last_progress := sampleProgress } []).1,
        (next { buffer := [], last_progress := sampleProgress } []).2.1,
        (next { buffer := [], last_progress := sampleProgress } []).2.2.1,
        [ExtCall.isRunning true, ExtCall.waitUntilDirty, ExtCall.isRunning true,
          ExtCall.fetchSnapshot (Except.ok sampleProgress)] ++
          (next { buffer := [], last_progress := sampleProgress } []).2.2.2) :=
  noop_diff_enqueues_nothing_and_blocks_again sampleProgress sampleProgress
    ⟨true, true, Except.ok sampleProgress⟩ [] rfl rfl rfl rfl rfl rfl rfl rfl rfl

/-- Claim C7: the `n` events enqueued in the buffer are returned by the
next `n` calls to `next()` in queue order, every one of those calls
performing no external call at all — in particular no blocking call to
the wait primitive intervenes. -/
theorem burst_drain_no_intervening_wait (s : PlayerEvents) (env : List StepOracle) :
    runNexts s env s.buffer.length =
      s.buffer.map (fun e => (NextResult.item (Except.ok e), ([] : List ExtCall))) := by
  obtain ⟨buf, lp⟩ := s
  induction buf with
  | nil => simp [runNexts]
  | cons e rest ih =>
      simp only [List.length_cons, List.map_cons, runNexts,
        next_pops_front_of_cons_buffer]
      exact congrArg _ ih

/-- Claim C8: once the sequence has ended — the queue is empty and the
player unreachable, which the spec models as permanent (every remaining
reachability answer is false) — every further `next()` call reports
end-of-sequence; no old or new event is ever yielded again. -/
theorem ended_sequence_stays_ended (s : PlayerEvents) (env : List StepOracle) (k : Nat)
    (hbuf : s.buffer = []) (henv : ∀ o ∈ env, o.running_before = false)
    (hk : k ≤ env.length) :
    runNexts s env k =
      List.replicate k (NextResult.ended, [ExtCall.isRunning false]) := by
  induction k generalizing s env with
  | zero => simp [runNexts]
  | succ k ih =>
      cases env with
      | nil => simp at hk
      | cons o env' =>
          have ho : o.running_before = false := henv o (List.mem_cons_self o env')
          obtain ⟨buf, lp⟩ := s
          dsimp only at hbuf
          subst hbuf
          have hstep : next { buffer := [], last_progress := lp } (o :: env') =
              (NextResult.ended, { buffer := [], last_progress := lp }, env',
                [ExtCall.isRunning false]) := by
            simp [next, ho]
          simp only [runNexts, hstep, List.replicate_succ]
          exact congrArg _ (ih { buffer := [], last_progress := lp } env' rfl
            (fun o' ho' => henv o' (List.mem_cons_of_mem o ho'))
            (Nat.le_of_succ_le_succ hk))

/-- Claim C8, witness: two consecutive calls on a dead player both report
end-of-sequence. -/
theorem ended_sequence_stays_ended_witness :
    runNexts sampleState
        [⟨false, false, Except.error ⟨"gone for good"⟩⟩,
         ⟨false, false, Except.error ⟨"gone for good"⟩⟩] 2 =
      List.replicate 2 (NextResult.ended, [ExtCall.isRunning false]) :=
  ended_sequence_stays_ended sampleState
    [⟨false, false, Except.error ⟨"gone for good"⟩⟩,
     ⟨false, false, Except.error ⟨"gone for good"⟩⟩] 2 rfl (by decide) (by decide)

/-- Claim C9: construction fetches an initial snapshot; a fetch error is
propagated as a construction failure and no stream is created, while a
successful fetch yields a stream with an empty pending queue and the
fetched snapshot as baseline. -/
theorem new_fetch_result_determines_construction :
    (∀ e : DBusError, PlayerEvents.new (Except.error e) = Except.error e) ∧
    (∀ p : Progress, PlayerEvents.new (Except.ok p) =
      Except.ok { buffer := [], last_progress := p }) :=
  ⟨fun _ => rfl, fun _ => rfl⟩

/-- Claim C10: with a non-empty pending queue, `next()` returns the front
queued event wrapped as a success, without checking reachability and
without any blocking wait (the call trace is empty and the oracle is
untouched), so queued events are delivered even if the player has since
become unreachable. -/
theorem next_nonempty_buffer_pops_front_no_external_calls
    (s : PlayerEvents) (e : Event) (rest : List Event) (env : List StepOracle)
    (hbuf : s.buffer = e :: rest) :
    next s env = (NextResult.item (Except.ok e), { s with buffer := rest }, env, []) := by
  obtain ⟨buf, lp⟩ := s
  dsimp only at hbuf
  subst hbuf
  exact next_pops_front_of_cons_buffer e rest lp env

/-- Claim C10, witness: the queued event is delivered although the player
is unreachable. -/
theorem next_nonempty_buffer_pops_front_no_external_calls_witness :
    next { buffer := [Event.Playing], last_progress := sampleProgress }
        [⟨false, false, Except.error ⟨"gone"⟩⟩] =
      (NextResult.item (Except.ok Event.Playing),
        { buffer := [], last_progress := sampleProgress },
        [⟨false, false, Except.error ⟨"gone"⟩⟩], []) :=
  next_nonempty_buffer_pops_front_no_external_calls
    { buffer := [Event.Playing], last_progress := sampleProgress }
    Event.Playing [] [⟨false, false, Except.error ⟨"gone"⟩⟩] rfl

end Mpris
